import Mathlib

set_option maxHeartbeats 1000000

/-!
Shallow embedding of the module-resolution core of `src/temp/loadConfigFromFile.ts`
(a Vite-style node resolver): `cleanUrl`, `isBuiltin`, `bareImportRE` /
`deepImportRE` matching, the base-directory choice, the optional-peer-dependency
branch and ESM retry of `tryNodeResolve`, the `processResult` externalization
closure, and `resolveDeepImport` with its per-package resolution cache.

External collaborators that are not part of the repository's source
(`resolveExportsOrImports`, `mapWithBrowserField`, `tryFsResolve`,
`resolvePackageData`, `findNearestMainPackageData`, the platform's
`builtinModules` list) are passed in as explicit environment functions, and
`resolveDeepImport` additionally returns a trace of the effectful calls it
makes, so that properties about which collaborator is consulted (and with
which arguments) can be stated directly.

JavaScript's untyped values and truthiness are modelled explicitly: manifest
fields are a small JSON value type, `string | undefined` becomes
`Option String`, and every `if (x)` in the source is embedded through the
corresponding truthiness function.
-/

/-- A JSON-ish JavaScript value, used for untyped manifest fields
(`exports`, `browser`). -/
inductive JsonVal where
  | jnull : JsonVal
  | jbool : Bool → JsonVal
  | jnum : Int → JsonVal
  | jstr : String → JsonVal
  | jarr : List JsonVal → JsonVal
  | jobj : List (String × JsonVal) → JsonVal

/-- JavaScript truthiness of a `JsonVal`. -/
def jsTruthy : JsonVal → Bool
  | .jnull => false
  | .jbool b => b
  | .jnum n => n != 0
  | .jstr s => s != ""
  | .jarr _ => true
  | .jobj _ => true

/-- Truthiness of a possibly-absent (`undefined`) JavaScript value. -/
def jsTruthyOpt : Option JsonVal → Bool
  | none => false
  | some v => jsTruthy v

/-- Embeds `isObject` (lines 89-91 / 524-526): `Object.prototype.toString`
yields `[object Object]` only for plain objects (not arrays, not
primitives). -/
def jsIsObject : JsonVal → Bool
  | .jobj _ => true
  | _ => false

/-- Embeds `Array.isArray`. -/
def jsIsArray : JsonVal → Bool
  | .jarr _ => true
  | _ => false

/-- Truthiness of a `string | undefined` value: `undefined` and the empty
string are falsy. -/
def optStrTruthy : Option String → Bool
  | none => false
  | some s => s != ""

/-- Template-literal interpolation of a `string | undefined` value:
`undefined` prints as the text `undefined`. -/
def jsShowOptStr : Option String → String
  | none => "undefined"
  | some s => s

/-- Whether `sub` occurs as a contiguous substring of `s` (JS
`String.includes`), on character lists. -/
def listContainsSub : List Char → List Char → Bool
  | _, [] => true
  | [], _ :: _ => false
  | c :: rest, sub =>
    if sub.isPrefixOf (c :: rest) then true else listContainsSub rest sub

/-- Whether `sub` occurs as a contiguous substring of `s`. -/
def containsSub (s sub : String) : Bool :=
  listContainsSub s.data sub.data

/-- First index at which `sub` occurs in `s`, on character lists. -/
def listFirstOccur : List Char → List Char → Option Nat
  | _, [] => some 0
  | [], _ :: _ => none
  | c :: rest, sub =>
    if sub.isPrefixOf (c :: rest) then some 0
    else (listFirstOccur rest sub).map (· + 1)

/-- Embeds JS `String.indexOf`: index of the first occurrence of `sub` in
`s`, or `-1`. -/
def strIndexOf (s sub : String) : Int :=
  match listFirstOccur s.data sub.data with
  | some n => (n : Int)
  | none => -1

/-- Embeds JS one-argument `String.slice`: a negative start counts from the
end, clamped to the string. -/
def strSliceFrom (s : String) (i : Int) : String :=
  let n : Int := (s.length : Int)
  let start : Int := if i < 0 then max (n + i) 0 else min i n
  String.mk (s.data.drop start.toNat)

/-- Embeds `cleanUrl` (lines 314-317): strip everything from the first `?`
or `#` on (the regex `[?#].*$` with the `s` flag, replaced once). -/
def cleanUrl (url : String) : String :=
  String.mk (url.data.takeWhile fun c => !(c = '?' || c = '#'))

/-- Drops the first `n` characters of a string (JS `slice(n)` for a
non-negative in-range start). -/
def strDrop (s : String) (n : Nat) : String :=
  String.mk (s.data.drop n)

/-- Embeds posix `path.isAbsolute`: a nonempty path whose first character is
the separator. -/
def pathIsAbsolute (p : String) : Bool :=
  p.data.head? == some '/'

/-- Embeds posix `path.dirname`: trailing separators are ignored, the last
component is removed; `/` and component-less inputs yield `/` or `.`. -/
def pathDirname (p : String) : String :=
  let cs := p.data
  let rev := cs.reverse
  let rev1 := rev.dropWhile (· = '/')
  let rev2 := rev1.dropWhile (· ≠ '/')
  let rev3 := rev2.dropWhile (· = '/')
  if rev3 = [] then
    if cs.head? = some '/' then "/" else "."
  else String.mk rev3.reverse

/-- Embeds the two-argument posix `path.join` uses of this file:
concatenation with a single separator (the source's arguments never need
`..`/`.` normalization). -/
def pathJoin (a b : String) : String :=
  if a = "" then b
  else if b = "" then a
  else if a.data.getLast? == some '/' then a ++ b
  else a ++ "/" ++ b

/-- Embeds posix `path.extname`: the suffix of the basename from its last
dot, empty when there is no dot or the only dot is the leading one. -/
def extname (p : String) : String :=
  let base := (p.data.reverse.takeWhile (· ≠ '/')).reverse
  if base = ['.'] ∨ base = ['.', '.'] then ""
  else
    let extRev := base.reverse.takeWhile (· ≠ '.')
    if extRev.length = base.length then ""
    else if extRev.length = base.length - 1 ∧ base.head? = some '.' then ""
    else String.mk ('.' :: extRev.reverse)

/-- Embeds the `\w` character class of `bareImportRE`. -/
def isWordChar (c : Char) : Bool :=
  c.isAlphanum || c = '_'

/-- Embeds `bareImportRE = /^[\w@](?!.*:\/\/)/` (line 312): the first
character is a word character or `@`, and `://` does not occur in the
remainder. -/
def bareImportTest (s : String) : Bool :=
  match s.data with
  | [] => false
  | c :: rest => (isWordChar c || c = '@') && !(containsSub (String.mk rest) "://")

/-- Splits a character list at its first `/`, returning the part before and
the part after the separator. -/
def splitFirstSlash : List Char → Option (List Char × List Char)
  | [] => none
  | c :: rest =>
    if c = '/' then some ([], rest)
    else match splitFirstSlash rest with
      | some (pre, post) => some (c :: pre, post)
      | none => none

/-- Embeds the match of `deepImportRE = /^([^@][^/]*)\/|^(@[^/]+\/[^/]+)\//`
(line 313): returns the captured package id (`deepMatch[1] || deepMatch[2]`)
when the specifier is a deep import. -/
def deepImportPkgId (id : String) : Option String :=
  match id.data with
  | [] => none
  | c :: rest =>
    if c = '@' then
      match splitFirstSlash rest with
      | some (scope, rest2) =>
        if scope = [] then none
        else match splitFirstSlash rest2 with
          | some (nm, _) =>
            if nm = [] then none
            else some ("@" ++ String.mk scope ++ "/" ++ String.mk nm)
          | none => none
      | none => none
    else
      match splitFirstSlash rest with
      | some (pre, _) => some (String.mk (c :: pre))
      | none => none

/-- Reserved virtual-id fixed text for packages that are optional peer
dependencies (line 322). -/
def optionalPeerDepId : String := "__vite-optional-peer-dep"

/-- Reserved virtual id for paths marked `browser: false` (line 320). -/
def browserExternalId : String := "__vite-browser-external"

/-- The hard-coded extra builtin names added to the platform's
`builtinModules` (lines 42-57); `builtinModules` itself comes from the
platform and is a parameter. -/
def builtinsExtra : List String :=
  ["assert/strict", "diagnostics_channel", "dns/promises", "fs/promises",
   "path/posix", "path/win32", "readline/promises", "stream/consumers",
   "stream/promises", "stream/web", "timers/promises", "util/types", "wasi"]

/-- Embeds the `builtins` set (lines 42-57). -/
def builtins (builtinModules : List String) : List String :=
  builtinModules ++ builtinsExtra

/-- Embeds `isBuiltin` (lines 60-66): strip a `node:` namespace before
looking the id up in the builtin set. -/
def isBuiltin (builtinModules : List String) (id : String) : Bool :=
  (builtins builtinModules).contains
    (if "node:".data.isPrefixOf id.data then strDrop id 5 else id)

/-- The fields of a package's parsed manifest plus its directory, as read by
the resolution core (`pkg.dir`, `pkg.data.name`, `pkg.data.exports`,
`pkg.data.browser`); untyped fields stay `JsonVal`. -/
structure PackageData where
  dir : String
  name : String
  exports : Option JsonVal
  browser : Option JsonVal

/-- The consumer package's manifest fields read by the optional-peer-dep
check: `name`, `peerDependencies` (id → version-range string) and
`peerDependenciesMeta` (id → truthiness of its `optional` member). -/
structure MainPkgData where
  name : String
  peerDependencies : List (String × String)
  peerDependenciesMeta : List (String × Bool)

/-- Embeds the peer-dependency test of lines 366-369:
`mainPkg.peerDependencies?.[id] && mainPkg.peerDependenciesMeta?.[id]?.optional`,
with JS truthiness on the looked-up values. -/
def peerOptional (mainPkg : MainPkgData) (id : String) : Bool :=
  (match List.lookup id mainPkg.peerDependencies with
    | some v => v != ""
    | none => false)
  && (match List.lookup id mainPkg.peerDependenciesMeta with
    | some b => b
    | none => false)

/-- The resolution-option fields read by the embedded code paths
(destructured from `options` at lines 334, 386-395, 574, 586-590). -/
structure ResolveOpts where
  root : String
  dedupe : List String
  browserField : Bool
  tryEsmOnly : Bool
  isRequire : Bool
  mainFields : List String
  extensions : List String
deriving DecidableEq

/-- Modelled from the spec: the per-package resolution cache behind
`getResolvedCache` / `setResolvedCache` / `webResolvedImports` of
`PackageData` (the accessor bodies are not under `src/`); §3 keys a
`ResolutionCacheEntry` by `(packageId, subpath, targetIsWeb)`, so per
package it is a pair of subpath → resolved-path maps, one per
`targetIsWeb` value. -/
structure PkgResolveCache where
  web : List (String × String)
  node : List (String × String)
deriving DecidableEq

/-- Modelled from the spec: `getResolvedCache(id, targetWeb)` reads the map
selected by `targetIsWeb` at the subpath key. -/
def getResolvedCache (st : PkgResolveCache) (key : String) (targetWeb : Bool) :
    Option String :=
  if targetWeb then List.lookup key st.web else List.lookup key st.node

/-- Modelled from the spec: `setResolvedCache(id, resolved, targetWeb)`
writes the subpath key in the map selected by `targetIsWeb`. -/
def setResolvedCache (st : PkgResolveCache) (key val : String)
    (targetWeb : Bool) : PkgResolveCache :=
  if targetWeb then { st with web := (key, val) :: st.web }
  else { st with node := (key, val) :: st.node }

/-- Result of `mapWithBrowserField`: a substitution string, the literal
`false`, or `undefined`. -/
inductive BrowserMapResult where
  | bstr : String → BrowserMapResult
  | bfalse : BrowserMapResult
  | bundef : BrowserMapResult
deriving DecidableEq

/-- The effectful collaborator calls `resolveDeepImport` can make, recorded
as a trace so claims about which collaborator is consulted (and with which
arguments) are statable. -/
inductive DeepEffect where
  | exportsLookup : String → DeepEffect
  | browserLookup : String → DeepEffect
  | fsResolve : String → Bool → DeepEffect
  | cacheWrite : String → String → DeepEffect
deriving DecidableEq

/-- Environment of collaborators called by `resolveDeepImport` whose bodies
are not under `src/`: `resolveExportsOrImports(data, file, options,
targetWeb, 'exports')`, `mapWithBrowserField(file, browserField)` and
`tryFsResolve(path, options, tryIndex, targetWeb)`. -/
structure DeepEnv where
  resolveExportsOrImports : PackageData → String → ResolveOpts → Bool → Option String
  mapWithBrowserField : String → JsonVal → BrowserMapResult
  tryFsResolve : String → ResolveOpts → Bool → Bool → Option String

/-- Output of `resolveDeepImport`: the returned value or thrown error
message, the updated per-package cache, and the trace of collaborator
calls. -/
structure DeepOut where
  result : Except String (Option String)
  cache : PkgResolveCache
  effects : List DeepEffect

/-- Embeds lines 585-599 of `resolveDeepImport`: when `relativeId` is
truthy, call `tryFsResolve` on the joined path with
`tryIndex = !exportsField`, caching and returning a truthy hit. -/
def deepFsStep (env : DeepEnv) (st : PkgResolveCache) (id : String)
    (pkg : PackageData) (targetWeb : Bool) (opts : ResolveOpts)
    (relativeId : Option String) (effs : List DeepEffect) : DeepOut :=
  if optStrTruthy relativeId then
    let rid := relativeId.getD ""
    let joined := pathJoin pkg.dir rid
    let tryIndex := !(jsTruthyOpt pkg.exports)
    let resolved := env.tryFsResolve joined opts tryIndex targetWeb
    let effs2 := effs ++ [DeepEffect.fsResolve joined tryIndex]
    if optStrTruthy resolved then
      ⟨Except.ok resolved,
        setResolvedCache st id (resolved.getD "") targetWeb,
        effs2 ++ [DeepEffect.cacheWrite id (resolved.getD "")]⟩
    else ⟨Except.ok none, st, effs2⟩
  else ⟨Except.ok none, st, effs⟩

/-- The NotDefined hard-error message of lines 569-572, whose interpolated
subpath slot is the current (cleared) `relativeId`. -/
def notDefinedMsg (relativeId : Option String) (dir : String) : String :=
  "Package subpath '" ++ jsShowOptStr relativeId ++
    "' is not defined by \x22exports\x22 in " ++
    pathJoin dir "package.json" ++ "."

/-- Embeds `resolveDeepImport` (lines 527-600): cache probe, exports-field
mapping with the NotDefined hard error, browser-field mapping when the
exports field is absent, then filesystem resolution and cache write.
`splitFileAndPostfix` (not under `src/`) is modelled from the spec: the file
portion is the specifier without its query/fragment postfix (`cleanUrl`),
the postfix is the remainder. -/
def resolveDeepImport (env : DeepEnv) (st : PkgResolveCache) (id : String)
    (pkg : PackageData) (targetWeb : Bool) (opts : ResolveOpts) : DeepOut :=
  let cache := getResolvedCache st id targetWeb
  if optStrTruthy cache then ⟨Except.ok cache, st, []⟩
  else if jsTruthyOpt pkg.exports then
    let step : Option String × List DeepEffect :=
      match pkg.exports with
      | some ef =>
        if jsIsObject ef && !(jsIsArray ef) then
          let file := cleanUrl id
          let urlSuffix := strDrop id file.length
          match env.resolveExportsOrImports pkg file opts targetWeb with
          | some exportsId =>
            (some (exportsId ++ urlSuffix), [DeepEffect.exportsLookup file])
          | none => (none, [DeepEffect.exportsLookup file])
        else (none, [])
      | none => (none, [])
    if !(optStrTruthy step.1) then
      ⟨Except.error (notDefinedMsg step.1 pkg.dir), st, step.2⟩
    else deepFsStep env st id pkg targetWeb opts step.1 step.2
  else
    let browserIsObj :=
      match pkg.browser with
      | some b => jsIsObject b
      | none => false
    if targetWeb && opts.browserField && browserIsObj then
      let file := cleanUrl id
      let urlSuffix := strDrop id file.length
      match env.mapWithBrowserField file (pkg.browser.getD JsonVal.jnull) with
      | .bstr m =>
        if m != "" then
          deepFsStep env st id pkg targetWeb opts (some (m ++ urlSuffix))
            [DeepEffect.browserLookup file]
        else
          deepFsStep env st id pkg targetWeb opts (some id)
            [DeepEffect.browserLookup file]
      | .bfalse =>
        ⟨Except.ok (some browserExternalId),
          { st with web := (id, browserExternalId) :: st.web },
          [DeepEffect.browserLookup file,
           DeepEffect.cacheWrite id browserExternalId]⟩
      | .bundef =>
        deepFsStep env st id pkg targetWeb opts (some id)
          [DeepEffect.browserLookup file]
    else deepFsStep env st id pkg targetWeb opts (some id) []

/-- Embeds `DEFAULT_EXTENSIONS` (lines 31-39). -/
def DEFAULT_EXTENSIONS : List String :=
  [".mjs", ".js", ".mts", ".ts", ".jsx", ".tsx", ".json"]

/-- Modelled from the spec: `DEFAULT_MAIN_FIELDS` (referenced at line 394
but not under `src/`): the fixed default main-field preference list used by
the ESM-preferring retry; the spec fixes only that it is the default list,
not its contents. -/
def DEFAULT_MAIN_FIELDS : List String :=
  ["module", "jsnext:main", "jsnext"]

/-- Embeds the base-directory choice of `tryNodeResolve` (lines 340-352):
dedupe forces the project root; otherwise a truthy absolute importer whose
last character is `*` or which (postfix-stripped) exists on disk yields the
importer's directory; otherwise the root. -/
def chooseBasedir (opts : ResolveOpts) (pkgId : String)
    (importer : Option String) (fsExists : String → Bool) : String :=
  if opts.dedupe.contains pkgId then opts.root
  else
    match importer with
    | some imp =>
      if imp != "" && pathIsAbsolute imp &&
          (imp.data.getLast? == some '*' || fsExists (cleanUrl imp)) then
        pathDirname imp
      else opts.root
    | none => opts.root

/-- The `options` overrides of the ESM-preferring retry (lines 391-396):
`isRequire: false`, default main fields, default extensions. -/
def esmRetryOpts (opts : ResolveOpts) : ResolveOpts :=
  { opts with
    isRequire := false
    mainFields := DEFAULT_MAIN_FIELDS
    extensions := DEFAULT_EXTENSIONS }

/-- Embeds lines 382-397 of `tryNodeResolve`: the first `resolveId` attempt
inside `try`, whose error is rethrown only when `tryEsmOnly` is false and
swallowed otherwise, followed by one retry with the ESM-preferring options
when the result so far is falsy and `tryEsmOnly` is set. -/
def resolveWithEsmFallback
    (resolver : String → PackageData → Bool → ResolveOpts → Except String (Option String))
    (unresolvedId : String) (pkg : PackageData) (targetWeb : Bool)
    (opts : ResolveOpts) : Except String (Option String) :=
  match resolver unresolvedId pkg targetWeb opts with
  | .error e =>
    if !opts.tryEsmOnly then .error e
    else resolver unresolvedId pkg targetWeb (esmRetryOpts opts)
  | .ok r =>
    if !(optStrTruthy r) && opts.tryEsmOnly then
      resolver unresolvedId pkg targetWeb (esmRetryOpts opts)
    else .ok r

/-- Environment of `tryNodeResolve` collaborators whose bodies are not under
`src/`: the filesystem existence test, `resolvePackageData(pkgId, basedir)`,
`findNearestMainPackageData(basedir)` (§4.1 of the spec), the two delegate
resolvers (`resolveDeepImport` / `resolvePackageEntry` as called at line
384, abstracted over their outcome), and the platform's `builtinModules`
list. -/
structure NodeEnv where
  builtinModules : List String
  fsExists : String → Bool
  resolvePackageData : String → String → Option PackageData
  findNearestMainPackageData : String → Option MainPkgData
  resolveDeepImportF : String → PackageData → Bool → ResolveOpts → Except String (Option String)
  resolvePackageEntryF : String → PackageData → Bool → ResolveOpts → Except String (Option String)

/-- Outcome of the resolution core of `tryNodeResolve` (lines 334-400): a
thrown error, the `undefined` return, the early optional-peer-dep virtual-id
return (lines 370-373), or a truthy resolved path handed on to the
post-processing of lines 398-521. -/
inductive CoreOutcome where
  | err : String → CoreOutcome
  | notFound : CoreOutcome
  | virtualId : String → CoreOutcome
  | resolvedPath : String → CoreOutcome
deriving DecidableEq

/-- Embeds the resolution core of `tryNodeResolve` (lines 334-400): package
id extraction, base-directory choice, package lookup with the
optional-peer-dependency fallback, then delegation to the deep-import or
package-entry resolver with the ESM retry. -/
def tryNodeResolveCore (env : NodeEnv) (id : String)
    (importer : Option String) (opts : ResolveOpts) (targetWeb : Bool) :
    CoreOutcome :=
  let deepPkg := deepImportPkgId id
  let pkgId := deepPkg.getD id
  let basedir := chooseBasedir opts pkgId importer env.fsExists
  match env.resolvePackageData pkgId basedir with
  | none =>
    if basedir != opts.root && !(isBuiltin env.builtinModules id) &&
        !(id.data.contains (Char.ofNat 0)) && bareImportTest id then
      match env.findNearestMainPackageData basedir with
      | some mainPkg =>
        if peerOptional mainPkg id then
          .virtualId (optionalPeerDepId ++ ":" ++ id ++ ":" ++ mainPkg.name)
        else .notFound
      | none => .notFound
    else .notFound
  | some pkg =>
    let resolver := if deepPkg.isSome then env.resolveDeepImportF
      else env.resolvePackageEntryF
    let unresolvedId := if deepPkg.isSome then "." ++ strDrop id pkgId.length
      else pkgId
    match resolveWithEsmFallback resolver unresolvedId pkg targetWeb opts with
    | .error e => .err e
    | .ok (some s) => if s != "" then .resolvedPath s else .notFound
    | .ok none => .notFound

/-- The resolution-result record flowing through `processResult`
(`PartialResolvedId`): an id, the external mark, and the side-effects flag
preserved by the object spread. -/
structure ResolvedModule where
  id : String
  isExternal : Bool
  moduleSideEffects : Option Bool
deriving DecidableEq

/-- Modelled from the spec: `isInNodeModules` (called at lines 407, 444,
466 but not under `src/`) — whether a path lies inside a dependency store,
i.e. contains a `node_modules` segment. -/
def isInNodeModules (p : String) : Bool :=
  containsSub p "node_modules"

/-- Embeds the `processResult` closure of `tryNodeResolve` (lines 402-426):
no-op without externalization or for non-store linked results when linked
externals are disallowed; results with a non-empty extension other than
`.js`/`.mjs`/`.cjs` pass through unmarked; otherwise the id is (for
exports-less deep imports with changed extension) re-sliced from the
resolved path via `indexOf`, and the result is marked external. -/
def processResult (id : String) (markExternal : Bool)
    (allowLinkedExternal : Bool) (deepMatch : Bool)
    (pkgExports : Option JsonVal) (resolved : ResolvedModule) :
    ResolvedModule :=
  if !markExternal then resolved
  else if !allowLinkedExternal && !(isInNodeModules resolved.id) then resolved
  else
    let resolvedExt := extname resolved.id
    if resolvedExt != "" && resolvedExt != ".js" && resolvedExt != ".mjs" &&
        resolvedExt != ".cjs" then resolved
    else
      let resolvedId :=
        if deepMatch && !(jsTruthyOpt pkgExports) && extname id != resolvedExt
        then strSliceFrom resolved.id (strIndexOf resolved.id id)
        else id
      { resolved with id := resolvedId, isExternal := true }

/-! Concrete fixtures used by witnesses and counterexamples. -/

/-- An empty per-package resolution cache. -/
def cache0 : PkgResolveCache := ⟨[], []⟩

/-- Concrete resolution options: root `/proj`, no dedupe, browser field
enabled, no ESM retry. -/
def opts0 : ResolveOpts :=
  ⟨"/proj", [], true, false, false, ["main"], DEFAULT_EXTENSIONS⟩

/-- Claim C9: when the extracted package id is in the dedupe list, the
chosen base directory for package lookup equals the project root, for every
importer and every filesystem. -/
theorem dedupe_forces_root_basedir (opts : ResolveOpts) (pkgId : String)
    (importer : Option String) (fsExists : String → Bool)
    (h : opts.dedupe.contains pkgId = true) :
    chooseBasedir opts pkgId importer fsExists = opts.root := by
  unfold chooseBasedir
  rw [h]
  rfl

theorem dedupe_forces_root_basedir_witness :
    ({ opts0 with dedupe := ["lodash"] } : ResolveOpts).dedupe.contains "lodash" = true ∧
    chooseBasedir { opts0 with dedupe := ["lodash"] } "lodash"
      (some "/elsewhere/mod.js") (fun _ => false) = "/proj" :=
  ⟨by decide,
   dedupe_forces_root_basedir { opts0 with dedupe := ["lodash"] } "lodash"
     (some "/elsewhere/mod.js") (fun _ => false) (by decide)⟩

/-- Claim C10: for a non-deduped package id and an absolute importer, a
trailing `*` makes the importer's directory the base directory with the
filesystem never consulted (the equation holds for every `fsExists`);
otherwise the importer's directory is used exactly when the postfix-stripped
importer exists, and the project root is used when it does not. -/
theorem importer_basedir_choice (opts : ResolveOpts) (pkgId imp : String)
    (fsExists : String → Bool)
    (hded : opts.dedupe.contains pkgId = false)
    (habs : pathIsAbsolute imp = true) :
    (imp.data.getLast? = some '*' →
      chooseBasedir opts pkgId (some imp) fsExists = pathDirname imp) ∧
    (imp.data.getLast? ≠ some '*' →
      chooseBasedir opts pkgId (some imp) fsExists =
        if fsExists (cleanUrl imp) then pathDirname imp else opts.root) := by
  have hne : imp ≠ "" := by
    intro he
    rw [he] at habs
    exact absurd habs (by decide)
  constructor
  · intro hstar
    unfold chooseBasedir
    rw [hded]
    simp [hne, habs, hstar]
  · intro hstar
    unfold chooseBasedir
    rw [hded]
    cases hfs : fsExists (cleanUrl imp) <;>
      simp [hne, habs, hstar, hfs]

theorem importer_basedir_choice_witness :
    (opts0.dedupe.contains "lodash" = false ∧
      pathIsAbsolute "/proj/src/style.css*" = true ∧
      "/proj/src/style.css*".data.getLast? = some '*' ∧
      chooseBasedir opts0 "lodash" (some "/proj/src/style.css*")
        (fun _ => false) = "/proj/src") ∧
    (pathIsAbsolute "/proj/src/mod.js" = true ∧
      "/proj/src/mod.js".data.getLast? ≠ some '*' ∧
      chooseBasedir opts0 "lodash" (some "/proj/src/mod.js")
        (fun _ => false) = "/proj") :=
  ⟨⟨by decide, by decide, by decide,
    (importer_basedir_choice opts0 "lodash" "/proj/src/style.css*"
      (fun _ => false) (by decide) (by decide)).1 (by decide)⟩,
   ⟨by decide, by decide, by
    have h := (importer_basedir_choice opts0 "lodash" "/proj/src/mod.js"
      (fun _ => false) (by decide) (by decide)).2 (by decide)
    simpa using h⟩⟩

/-- Claim C6: an error of the first resolution attempt propagates exactly
when `tryEsmOnly` is false; when it is true the first error is discarded and
the outcome is exactly that of one retry with the ESM-preferring options
(`isRequire` false, default main fields, default extensions). -/
theorem tryNodeResolve_esm_retry_error_handling
    (resolver : String → PackageData → Bool → ResolveOpts → Except String (Option String))
    (u : String) (pkg : PackageData) (tw : Bool) (opts : ResolveOpts)
    (e : String) (h : resolver u pkg tw opts = Except.error e) :
    (opts.tryEsmOnly = false →
      resolveWithEsmFallback resolver u pkg tw opts = Except.error e) ∧
    (opts.tryEsmOnly = true →
      resolveWithEsmFallback resolver u pkg tw opts =
        resolver u pkg tw (esmRetryOpts opts)) := by
  unfold resolveWithEsmFallback
  rw [h]
  constructor <;> intro ht <;> simp [ht]

/-- A resolver fixture whose require-conditioned attempt throws and whose
ESM-preferring attempt succeeds. -/
def resolverW : String → PackageData → Bool → ResolveOpts → Except String (Option String) :=
  fun _ _ _ o => if o.isRequire then Except.error "boom" else Except.ok (some "/x.mjs")

/-- A package fixture with no exports and no browser field. -/
def pkgPlain : PackageData :=
  ⟨"/proj/node_modules/plain", "plain", none, none⟩

theorem tryNodeResolve_esm_retry_error_handling_witness :
    resolverW "./u" pkgPlain false
        { opts0 with tryEsmOnly := true, isRequire := true } =
      Except.error "boom" ∧
    resolveWithEsmFallback resolverW "./u" pkgPlain false
        { opts0 with tryEsmOnly := true, isRequire := true } =
      Except.ok (some "/x.mjs") := by
  constructor
  · rfl
  · have h := (tryNodeResolve_esm_retry_error_handling resolverW "./u" pkgPlain
      false { opts0 with tryEsmOnly := true, isRequire := true } "boom" rfl).2 rfl
    rw [h]
    rfl

/-- Claim C4 counterexample: under externalization, a resolved result with
no extension at all is marked external, contradicting the claim that such a
result is returned without the external mark. -/
theorem processResult_extensionless_external_counterexample :
    extname "/r/node_modules/somepkg/bin/cli" = "" ∧
    processResult "somepkg" true true false none
        ⟨"/r/node_modules/somepkg/bin/cli", false, none⟩ =
      ⟨"somepkg", true, none⟩ := by
  constructor
  · rfl
  · rfl

/-- Claim C4 as amended: under externalization, only results whose extension
is `.js`, `.mjs`, `.cjs` or empty may be marked external; a result with any
other non-empty extension is returned unchanged, without the external
mark. -/
theorem processResult_nonjs_ext_not_externalized (id : String)
    (markExternal allowLinkedExternal deepMatch : Bool)
    (pkgExports : Option JsonVal) (resolved : ResolvedModule)
    (h1 : extname resolved.id ≠ "") (h2 : extname resolved.id ≠ ".js")
    (h3 : extname resolved.id ≠ ".mjs") (h4 : extname resolved.id ≠ ".cjs") :
    processResult id markExternal allowLinkedExternal deepMatch pkgExports
      resolved = resolved := by
  unfold processResult
  have hc : (extname resolved.id != "" && extname resolved.id != ".js" &&
      extname resolved.id != ".mjs" && extname resolved.id != ".cjs") = true := by
    simp [bne_iff_ne, h1, h2, h3, h4]
  simp only [hc]
  split
  · rfl
  · split
    · rfl
    · rfl

theorem processResult_nonjs_ext_not_externalized_witness :
    extname "/r/node_modules/somepkg/styles/main.css" = ".css" ∧
    processResult "somepkg/styles/main.css" true true true none
        ⟨"/r/node_modules/somepkg/styles/main.css", false, none⟩ =
      ⟨"/r/node_modules/somepkg/styles/main.css", false, none⟩ :=
  ⟨by decide,
   processResult_nonjs_ext_not_externalized "somepkg/styles/main.css" true true
     true none ⟨"/r/node_modules/somepkg/styles/main.css", false, none⟩
     (by decide) (by decide) (by decide) (by decide)⟩

/-- Claim C5: when the package cannot be located and the base directory is
not the project root, a bare, non-builtin specifier without a NUL marker
whose consumer manifest lists it as an optional peer dependency resolves to
the virtual id `<fixed-prefix>:<dependencyName>:<consumingPackageName>`
instead of NotFound and instead of throwing; in every other not-found case
the core returns NotFound. -/
theorem tryNodeResolve_optional_peer_dep (env : NodeEnv) (id : String)
    (importer : Option String) (opts : ResolveOpts) (tw : Bool)
    (pkgId basedir : String)
    (hpkgId : (deepImportPkgId id).getD id = pkgId)
    (hbase : chooseBasedir opts pkgId importer env.fsExists = basedir)
    (hnone : env.resolvePackageData pkgId basedir = none) :
    (∀ mainPkg : MainPkgData,
      basedir ≠ opts.root →
      isBuiltin env.builtinModules id = false →
      id.data.contains (Char.ofNat 0) = false →
      bareImportTest id = true →
      env.findNearestMainPackageData basedir = some mainPkg →
      peerOptional mainPkg id = true →
      tryNodeResolveCore env id importer opts tw =
        CoreOutcome.virtualId (optionalPeerDepId ++ ":" ++ id ++ ":" ++ mainPkg.name)) ∧
    (¬ (basedir ≠ opts.root ∧ isBuiltin env.builtinModules id = false ∧
        id.data.contains (Char.ofNat 0) = false ∧ bareImportTest id = true ∧
        ∃ mainPkg : MainPkgData,
          env.findNearestMainPackageData basedir = some mainPkg ∧
          peerOptional mainPkg id = true) →
      tryNodeResolveCore env id importer opts tw = CoreOutcome.notFound) := by
  constructor
  · intro mainPkg hroot hbuiltin hnul hbare hfind hpeer
    unfold tryNodeResolveCore
    simp only [hpkgId, hbase, hnone]
    have hnul2 : Char.ofNat 0 ∉ id.data := by simpa using hnul
    have hcond : (basedir != opts.root && !(isBuiltin env.builtinModules id) &&
        !(id.data.contains (Char.ofNat 0)) && bareImportTest id) = true := by
      simp [bne_iff_ne, hroot, hbuiltin, hnul2, hbare]
    rw [hcond]
    simp only [if_true, hfind, hpeer]
  · intro hneg
    unfold tryNodeResolveCore
    simp only [hpkgId, hbase, hnone]
    by_cases hcond : (basedir != opts.root && !(isBuiltin env.builtinModules id) &&
        !(id.data.contains (Char.ofNat 0)) && bareImportTest id) = true
    · rw [hcond]
      simp only [if_true]
      have hconds := hcond
      simp only [Bool.and_eq_true, bne_iff_ne, Bool.not_eq_true'] at hconds
      obtain ⟨⟨⟨hroot, hbuiltin⟩, hnul⟩, hbare⟩ := hconds
      cases hfind : env.findNearestMainPackageData basedir with
      | none => rfl
      | some mainPkg =>
        by_cases hpeer : peerOptional mainPkg id = true
        · exact absurd ⟨hroot, hbuiltin, hnul, hbare, mainPkg, hfind, hpeer⟩ hneg
        · simp only [Bool.not_eq_true] at hpeer
          simp only [hpeer]
          rfl
    · simp only [Bool.not_eq_true] at hcond
      rw [hcond]
      rfl

/-- A resolution environment fixture where no package can be located, the
filesystem contains everything, and the consumer manifest declares `foo` as
an optional peer dependency. -/
def envPeer : NodeEnv where
  builtinModules := ["fs", "path"]
  fsExists := fun _ => true
  resolvePackageData := fun _ _ => none
  findNearestMainPackageData := fun _ =>
    some ⟨"consumer", [("foo", "*")], [("foo", true)]⟩
  resolveDeepImportF := fun _ _ _ _ => Except.ok none
  resolvePackageEntryF := fun _ _ _ _ => Except.ok none

theorem tryNodeResolve_optional_peer_dep_witness :
    chooseBasedir opts0 "foo" (some "/proj/node_modules/consumer/index.js")
        envPeer.fsExists = "/proj/node_modules/consumer" ∧
    ("/proj/node_modules/consumer" : String) ≠ opts0.root ∧
    tryNodeResolveCore envPeer "foo"
        (some "/proj/node_modules/consumer/index.js") opts0 false =
      CoreOutcome.virtualId "__vite-optional-peer-dep:foo:consumer" := by
  refine ⟨by decide, by decide, ?_⟩
  have h := (tryNodeResolve_optional_peer_dep envPeer "foo"
      (some "/proj/node_modules/consumer/index.js") opts0 false
      "foo" "/proj/node_modules/consumer" (by decide) (by decide) rfl).1
      ⟨"consumer", [("foo", "*")], [("foo", true)]⟩
      (by decide) (by decide) (by decide) (by decide) rfl (by decide)
  exact h


/-- Well-formedness of one trace entry relative to the truthiness of the
package's exports field: every filesystem-resolve call carries
`tryIndex = !exports` and a browser-field lookup can appear only when the
exports field is absent (not truthy). -/
def deepEffectOk (exportsTruthy : Bool) : DeepEffect → Bool
  | .fsResolve _ tryIndex => tryIndex == !exportsTruthy
  | .browserLookup _ => !exportsTruthy
  | _ => true

/-- Every trace entry appended by `deepFsStep` is well formed. -/
lemma deepFsStep_effects_ok (env : DeepEnv) (st : PkgResolveCache)
    (id : String) (pkg : PackageData) (tw : Bool) (opts : ResolveOpts)
    (rel : Option String) (effs : List DeepEffect) (b : Bool)
    (hb : jsTruthyOpt pkg.exports = b)
    (h : effs.all (deepEffectOk b) = true) :
    (deepFsStep env st id pkg tw opts rel effs).effects.all
      (deepEffectOk b) = true := by
  subst hb
  simp only [deepFsStep]
  split
  · split
    · simp [List.all_append, h, deepEffectOk]
    · simp [List.all_append, h, deepEffectOk]
  · exact h

/-- Every trace entry of a `resolveDeepImport` run is well formed. -/
lemma resolveDeepImport_effects_ok (env : DeepEnv) (st : PkgResolveCache)
    (id : String) (pkg : PackageData) (tw : Bool) (opts : ResolveOpts) :
    (resolveDeepImport env st id pkg tw opts).effects.all
      (deepEffectOk (jsTruthyOpt pkg.exports)) = true := by
  simp only [resolveDeepImport]
  split
  · rfl
  · split
    · next hex =>
      cases hpe : pkg.exports with
      | none =>
        rw [hpe] at hex
        exact absurd hex (by simp [jsTruthyOpt])
      | some ef =>
        simp only [hpe, jsTruthyOpt]
        by_cases hobj : (jsIsObject ef && !jsIsArray ef) = true
        · simp only [hobj, if_true]
          cases hres : env.resolveExportsOrImports pkg (cleanUrl id) opts tw with
          | some eid =>
            simp only [hres]
            split
            · simp [deepEffectOk]
            · exact deepFsStep_effects_ok env st id pkg tw opts _ _ _
                (by simp [hpe, jsTruthyOpt]) (by simp [deepEffectOk])
          | none =>
            simp only [hres]
            split
            · simp [deepEffectOk]
            · next hrel => simp [optStrTruthy] at hrel
        · simp only [Bool.not_eq_true] at hobj
          simp only [hobj, Bool.false_eq_true, if_false]
          split
          · simp [deepEffectOk]
          · next hrel => simp [optStrTruthy] at hrel
    · next hex =>
      have hex2 : jsTruthyOpt pkg.exports = false := by simpa using hex
      simp only [hex2]
      split
      · split
        · split
          · exact deepFsStep_effects_ok env st id pkg tw opts _ _ _ hex2
              (by simp [deepEffectOk])
          · exact deepFsStep_effects_ok env st id pkg tw opts _ _ _ hex2
              (by simp [deepEffectOk])
        · simp [deepEffectOk]
        · exact deepFsStep_effects_ok env st id pkg tw opts _ _ _ hex2
            (by simp [deepEffectOk])
      · exact deepFsStep_effects_ok env st id pkg tw opts _ _ _ hex2 (by rfl)

/-- Recognizes a filesystem-resolve trace entry whose `tryIndex` argument is
the given flag. -/
def fsTryIndexOk (b : Bool) : DeepEffect → Bool
  | .fsResolve _ tryIndex => tryIndex == b
  | _ => true

/-- Claim C8: every `tryFsResolve` call made by `resolveDeepImport` passes
`tryIndex = true` exactly when the package has no (truthy) exports field:
each recorded filesystem-resolve call carries the flag `!exports`, so a
package declaring an exports field never receives an implicit index
fallback. -/
theorem deepImport_tryIndex_iff_no_exports (env : DeepEnv)
    (st : PkgResolveCache) (id : String) (pkg : PackageData) (tw : Bool)
    (opts : ResolveOpts) :
    (resolveDeepImport env st id pkg tw opts).effects.all
      (fsTryIndexOk (!(jsTruthyOpt pkg.exports))) = true := by
  have h := resolveDeepImport_effects_ok env st id pkg tw opts
  rw [List.all_eq_true] at h ⊢
  intro e he
  have he2 := h e he
  cases e <;> simp_all [deepEffectOk, fsTryIndexOk]

/-- Recognizes a browser-field lookup trace entry. -/
def isBrowserLookupEff : DeepEffect → Bool
  | .browserLookup _ => true
  | _ => false

/-- Claim C7: a deep-import resolution of a package whose manifest declares
a (truthy) exports field never consults the browser-field substitution
table, whatever the target and options: no browser-field lookup appears in
the trace. -/
theorem deepImport_exports_excludes_browser_field (env : DeepEnv)
    (st : PkgResolveCache) (id : String) (pkg : PackageData) (tw : Bool)
    (opts : ResolveOpts) (h : jsTruthyOpt pkg.exports = true) :
    (resolveDeepImport env st id pkg tw opts).effects.any
      isBrowserLookupEff = false := by
  have hall := resolveDeepImport_effects_ok env st id pkg tw opts
  rw [h] at hall
  rw [List.all_eq_true] at hall
  cases hany : (resolveDeepImport env st id pkg tw opts).effects.any
      isBrowserLookupEff with
  | false => rfl
  | true =>
    rw [List.any_eq_true] at hany
    obtain ⟨e, he, hbe⟩ := hany
    have he2 := hall e he
    cases e <;> simp_all [deepEffectOk, isBrowserLookupEff]

/-- A package fixture declaring both an exports object and a browser
substitution table. -/
def pkgCoverBoth : PackageData :=
  ⟨"/proj/node_modules/pkg", "pkg",
   some (JsonVal.jobj [("./a", JsonVal.jstr "./a.js")]),
   some (JsonVal.jobj [("./a.js", JsonVal.jstr "./a.browser.js")])⟩

/-- A deep-import environment fixture: the exports resolver covers nothing,
the browser map always substitutes, and every filesystem stem resolves to
itself. -/
def envAlways : DeepEnv :=
  ⟨fun _ _ _ _ => some "./a.js",
   fun _ _ => BrowserMapResult.bstr "./b.js",
   fun p _ _ _ => some p⟩

theorem deepImport_exports_excludes_browser_field_witness :
    jsTruthyOpt pkgCoverBoth.exports = true ∧
    (resolveDeepImport envAlways cache0 "./a" pkgCoverBoth true opts0).effects.any
      isBrowserLookupEff = false :=
  ⟨by decide,
   deepImport_exports_excludes_browser_field envAlways cache0 "./a"
     pkgCoverBoth true opts0 (by decide)⟩

/-- Writing the cache makes the written key readable. -/
lemma getResolvedCache_set (st : PkgResolveCache) (k v : String) (tw : Bool) :
    getResolvedCache (setResolvedCache st k v tw) k tw = some v := by
  cases tw <;> simp [getResolvedCache, setResolvedCache, List.lookup]

/-- A truthy cached entry is returned as-is, with no state change and no
collaborator work. -/
lemma resolveDeepImport_hit (env : DeepEnv) (st : PkgResolveCache)
    (id : String) (pkg : PackageData) (tw : Bool) (opts : ResolveOpts)
    (h : optStrTruthy (getResolvedCache st id tw) = true) :
    resolveDeepImport env st id pkg tw opts =
      ⟨Except.ok (getResolvedCache st id tw), st, []⟩ := by
  simp [resolveDeepImport, h]

/-- A successful `deepFsStep` leaves its result readable in the cache under
the request key, and the result is truthy. -/
lemma deepFsStep_success_cached (env : DeepEnv) (st : PkgResolveCache)
    (id : String) (pkg : PackageData) (tw : Bool) (opts : ResolveOpts)
    (rel : Option String) (effs : List DeepEffect) (r : String)
    (h : (deepFsStep env st id pkg tw opts rel effs).result = Except.ok (some r)) :
    getResolvedCache (deepFsStep env st id pkg tw opts rel effs).cache id tw =
      some r ∧ r ≠ "" := by
  revert h
  simp only [deepFsStep]
  split
  · split
    · next hres =>
      intro h
      simp only [Except.ok.injEq] at h
      rw [h] at hres ⊢
      refine ⟨?_, ?_⟩
      · simpa using getResolvedCache_set st id r tw
      · simpa [optStrTruthy, bne_iff_ne] using hres
    · intro h
      simp at h
  · intro h
    simp at h

/-- A successful `resolveDeepImport` leaves its result readable in the
cache under the `(subpath, targetWeb)` key, and the result is truthy. -/
lemma resolveDeepImport_success_cached (env : DeepEnv) (st : PkgResolveCache)
    (id : String) (pkg : PackageData) (tw : Bool) (opts : ResolveOpts)
    (r : String)
    (h : (resolveDeepImport env st id pkg tw opts).result = Except.ok (some r)) :
    getResolvedCache (resolveDeepImport env st id pkg tw opts).cache id tw =
      some r ∧ r ≠ "" := by
  revert h
  simp only [resolveDeepImport]
  split
  · next hcache =>
    intro h
    simp only [Except.ok.injEq] at h
    refine ⟨by simpa using h, ?_⟩
    rw [h] at hcache
    simpa [optStrTruthy, bne_iff_ne] using hcache
  · split
    · split
      · intro h
        simp at h
      · intro h
        exact deepFsStep_success_cached env st id pkg tw opts _ _ r h
    · split
      · split
        · split
          · intro h
            exact deepFsStep_success_cached env st id pkg tw opts _ _ r h
          · intro h
            exact deepFsStep_success_cached env st id pkg tw opts _ _ r h
        · rename_i hcond x heq
          intro h
          simp only [Except.ok.injEq, Option.some.injEq] at h
          subst h
          have htw : tw = true := by
            simp only [Bool.and_eq_true] at hcond
            exact hcond.1.1
          subst htw
          exact ⟨by simp [getResolvedCache, List.lookup], by decide⟩
        · intro h
          exact deepFsStep_success_cached env st id pkg tw opts _ _ r h
      · intro h
        exact deepFsStep_success_cached env st id pkg tw opts _ _ r h

/-- A deep-import environment fixture whose exports resolver covers
nothing, whose browser map never matches, and whose filesystem resolves
every stem to itself. -/
def envNoCover : DeepEnv :=
  ⟨fun _ _ _ _ => none,
   fun _ _ => BrowserMapResult.bundef,
   fun p _ _ _ => some p⟩

/-- A package fixture declaring `exports` covering only `./a`. -/
def pkgCover : PackageData :=
  ⟨"/proj/node_modules/pkg", "pkg",
   some (JsonVal.jobj [("./a", JsonVal.jstr "./a.js")]),
   none⟩

/-- Claim C1: requesting the uncovered subpath `./b` of a package whose
manifest declares an exports field aborts with a hard error and attempts no
filesystem fallback (the trace shows only the exports lookup, although the
filesystem would resolve the file), and the message names the manifest
path; but the message's subpath slot interpolates the cleared `relativeId`,
so it reads `'undefined'` and never names the requested subpath `./b`. -/
theorem deepImport_notDefined_message_bug :
    (resolveDeepImport envNoCover cache0 "./b" pkgCover false opts0).result =
      Except.error (notDefinedMsg none "/proj/node_modules/pkg") ∧
    notDefinedMsg none "/proj/node_modules/pkg" =
      "Package subpath 'undefined' is not defined by \"exports\" in /proj/node_modules/pkg/package.json." ∧
    containsSub (notDefinedMsg none "/proj/node_modules/pkg")
      "/proj/node_modules/pkg/package.json" = true ∧
    containsSub (notDefinedMsg none "/proj/node_modules/pkg") "./b" = false ∧
    (resolveDeepImport envNoCover cache0 "./b" pkgCover false opts0).effects =
      [DeepEffect.exportsLookup "./b"] := by
  refine ⟨rfl, rfl, ?_, ?_, rfl⟩
  · decide
  · decide

/-- A package fixture whose `exports` field is a top-level array of
alternatives. -/
def pkgArrExports : PackageData :=
  ⟨"/proj/node_modules/arrpkg", "arrpkg",
   some (JsonVal.jarr [JsonVal.jstr "./ok.js"]),
   none⟩

/-- Claim C2 counterexample: with a top-level array exports field,
`resolveDeepImport` raises the hard not-defined error without evaluating
any alternative (empty trace), even though the conditional resolver and the
filesystem would both succeed: the array form is treated as an unexposed
subpath surface, not evaluated in order. -/
theorem deepImport_array_exports_counterexample :
    envAlways.resolveExportsOrImports pkgArrExports "./x" opts0 false =
      some "./a.js" ∧
    envAlways.tryFsResolve "/proj/node_modules/arrpkg/./x" opts0 true false =
      some "/proj/node_modules/arrpkg/./x" ∧
    (resolveDeepImport envAlways cache0 "./x" pkgArrExports false opts0).result =
      Except.error (notDefinedMsg none "/proj/node_modules/arrpkg") ∧
    (resolveDeepImport envAlways cache0 "./x" pkgArrExports false opts0).effects =
      [] := by
  refine ⟨rfl, rfl, rfl, rfl⟩

/-- Claim C2 as amended: a package whose exports field is an ordered array
of alternatives has the array treated as an unexposed subpath surface by
`resolveDeepImport`: on a cache miss, every deep import of it aborts with
the hard not-defined error, with no alternative evaluated and no
filesystem access (ordered-array evaluation happens only inside the
conditional resolver, for arrays nested within an exports object). -/
theorem deepImport_array_exports_not_exposed (env : DeepEnv)
    (st : PkgResolveCache) (id : String) (pkg : PackageData) (tw : Bool)
    (opts : ResolveOpts) (a : List JsonVal)
    (hcache : optStrTruthy (getResolvedCache st id tw) = false)
    (harr : pkg.exports = some (JsonVal.jarr a)) :
    resolveDeepImport env st id pkg tw opts =
      ⟨Except.error (notDefinedMsg none pkg.dir), st, []⟩ := by
  simp only [resolveDeepImport, hcache, Bool.false_eq_true, if_false, harr]
  simp [jsTruthyOpt, jsTruthy, jsIsObject, jsIsArray, optStrTruthy]

theorem deepImport_array_exports_not_exposed_witness :
    optStrTruthy (getResolvedCache cache0 "./x" false) = false ∧
    pkgArrExports.exports = some (JsonVal.jarr [JsonVal.jstr "./ok.js"]) ∧
    resolveDeepImport envAlways cache0 "./x" pkgArrExports false opts0 =
      ⟨Except.error (notDefinedMsg none "/proj/node_modules/arrpkg"),
       cache0, []⟩ :=
  ⟨by decide, rfl,
   deepImport_array_exports_not_exposed envAlways cache0 "./x" pkgArrExports
     false opts0 [JsonVal.jstr "./ok.js"] (by decide) rfl⟩

/-- A deep-import environment fixture whose collaborators all fail: the
filesystem finds nothing. -/
def envFsFail : DeepEnv :=
  ⟨fun _ _ _ _ => none,
   fun _ _ => BrowserMapResult.bundef,
   fun _ _ _ _ => none⟩

/-- Claim C3 counterexample: a failed resolution creates no cache entry
(the cache is returned unchanged), and repeating the identical request
performs the filesystem work again — contradicting that an entry is created
on the first failed resolution and that the second identical request redoes
no underlying work. -/
theorem deepImport_failure_not_cached_counterexample :
    (resolveDeepImport envFsFail cache0 "./x" pkgPlain false opts0).result =
      Except.ok none ∧
    (resolveDeepImport envFsFail cache0 "./x" pkgPlain false opts0).cache =
      cache0 ∧
    (resolveDeepImport envFsFail
        (resolveDeepImport envFsFail cache0 "./x" pkgPlain false opts0).cache
        "./x" pkgPlain false opts0).effects =
      [DeepEffect.fsResolve "/proj/node_modules/plain/./x" true] := by
  refine ⟨rfl, rfl, rfl⟩

/-- Claim C3 as amended: a resolution cache entry is created on the first
successful resolution of a `(subpath, targetWeb)` key (including the
browser-stub short-circuit) and is read on every subsequent identical
request, so a successful deep-import resolution repeated against the
resulting state returns the identical result with no further
exports/browser/filesystem work (empty trace); failed resolutions are not
cached and repeat their work. -/
theorem deepImport_success_cached_idempotent (env : DeepEnv)
    (st : PkgResolveCache) (id : String) (pkg : PackageData) (tw : Bool)
    (opts : ResolveOpts) (r : String)
    (h : (resolveDeepImport env st id pkg tw opts).result = Except.ok (some r)) :
    resolveDeepImport env (resolveDeepImport env st id pkg tw opts).cache id
        pkg tw opts =
      ⟨Except.ok (some r),
       (resolveDeepImport env st id pkg tw opts).cache, []⟩ := by
  obtain ⟨hc, hr⟩ := resolveDeepImport_success_cached env st id pkg tw opts r h
  have htr : optStrTruthy
      (getResolvedCache (resolveDeepImport env st id pkg tw opts).cache id tw) =
      true := by
    rw [hc]
    simpa [optStrTruthy, bne_iff_ne] using hr
  rw [resolveDeepImport_hit env _ id pkg tw opts htr, hc]

theorem deepImport_success_cached_idempotent_witness :
    (resolveDeepImport envNoCover cache0 "./x" pkgPlain false opts0).result =
      Except.ok (some "/proj/node_modules/plain/./x") ∧
    resolveDeepImport envNoCover
        (resolveDeepImport envNoCover cache0 "./x" pkgPlain false opts0).cache
        "./x" pkgPlain false opts0 =
      ⟨Except.ok (some "/proj/node_modules/plain/./x"),
       (resolveDeepImport envNoCover cache0 "./x" pkgPlain false opts0).cache,
       []⟩ :=
  ⟨rfl,
   deepImport_success_cached_idempotent envNoCover cache0 "./x" pkgPlain
     false opts0 "/proj/node_modules/plain/./x" rfl⟩
